import Mathlib

/-!
Verification of the lbImageServer repository.

Shallow embedding of the Go sources: the Windows service variant
(golang-webserver/main.go: `LoadConfig`, `Execute`, `createServer`,
`installService`), the container variant (`ServeFiles` and its env-driven
main), and the install branch of manage_service.bat.  External collaborators
(the Windows service-control subsystem, the event log, the filesystem, the
JSON decoder and the Go http primitives) appear as oracles or as effect
constructors; the repository code itself is translated statement by
statement.
-/

/-! ## Windows service constants (golang.org/x/sys/windows/svc) -/

/-- State constant svc.Stopped. -/
def svcStopped : Nat := 1

/-- State constant svc.StartPending. -/
def svcStartPending : Nat := 2

/-- State constant svc.StopPending. -/
def svcStopPending : Nat := 3

/-- State constant svc.Running. -/
def svcRunning : Nat := 4

/-- Command constant svc.Stop. -/
def cmdStop : Nat := 1

/-- Command constant svc.Interrogate. -/
def cmdInterrogate : Nat := 4

/-- Command constant svc.Shutdown. -/
def cmdShutdown : Nat := 5

/-- Accepted-controls bit svc.AcceptStop. -/
def acceptStop : Nat := 1

/-- Accepted-controls bit svc.AcceptShutdown. -/
def acceptShutdown : Nat := 4

/-- The constant cmdsAccepted in Execute: svc.AcceptStop | svc.AcceptShutdown. -/
def cmdsAccepted : Nat := acceptStop ||| acceptShutdown

/-- svc.Status: the status record a service reports on the changes channel.
WaitHint is in milliseconds, as in the Go API. -/
structure SvcStatus where
  state : Nat
  accepts : Nat := 0
  waitHint : Nat := 0
deriving DecidableEq, Repr

/-- The StartPending status sent on entry to Execute. -/
def startPendingStatus : SvcStatus :=
  { state := svcStartPending, accepts := cmdsAccepted, waitHint := 10000 }

/-- The Running status sent after the 1s startup grace sleep. -/
def runningStatus : SvcStatus :=
  { state := svcRunning, accepts := cmdsAccepted }

/-- The StopPending status sent on a Stop or Shutdown request. -/
def stopPendingStatus : SvcStatus :=
  { state := svcStopPending, accepts := cmdsAccepted, waitHint := 10000 }

/-- The final Stopped status reported by the service wrapper once Execute
returns. -/
def stoppedStatus : SvcStatus := { state := svcStopped }

/-- svc.ChangeRequest: a control command together with the current status
held by the service control manager. -/
structure ChangeRequest where
  cmd : Nat
  currentStatus : SvcStatus
deriving DecidableEq, Repr

/-- One event consumed by the select loop of Execute: either an error
delivered on errChan by the listener goroutine, or a control request
delivered on the r channel. -/
inductive ExecEvent
  | serverErr
  | request (c : ChangeRequest)
deriving DecidableEq, Repr

/-- Observable effects of Execute: status reports on the changes channel,
event-log writes, mutations of the lock-guarded isRunning flag, and the
call to server.Shutdown with its deadline in milliseconds.  Formatted
arguments of the Go log messages are elided. -/
inductive Effect
  | setStatus (st : SvcStatus)
  | logInfo (msg : String)
  | logError (msg : String)
  | setRunning (b : Bool)
  | shutdown (timeoutMs : Nat)
deriving DecidableEq, Repr

/-- Effects emitted by the svc.Stop / svc.Shutdown branch of the select
loop, in source order: log, report StopPending, clear isRunning under the
lock, call server.Shutdown with a 5-second deadline, log an error when
Shutdown returned one, log success.  The parameter says whether
server.Shutdown returned an error. -/
def stopEffects (shutdownErr : Bool) : List Effect :=
  [Effect.logInfo "Service stop or shutdown received",
   Effect.setStatus stopPendingStatus,
   Effect.setRunning false,
   Effect.shutdown 5000]
  ++ (if shutdownErr then [Effect.logError "Error during shutdown"] else [])
  ++ [Effect.logInfo "Service stopped successfully"]

/-- Effects emitted by Execute before its select loop, in source order:
report StartPending, log, start the listener goroutine (which logs and sets
isRunning under the lock), sleep 1s, report Running, log. -/
def startEffects : List Effect :=
  [Effect.setStatus startPendingStatus,
   Effect.logInfo "Service Execute started",
   Effect.logInfo "Starting HTTP server",
   Effect.setRunning true,
   Effect.setStatus runningStatus,
   Effect.logInfo "Service status set to running"]

/-- The select loop of Execute, run over a linearised list of channel
events.  Returns the effects emitted and the return value of Execute
(none when the event list is exhausted with the loop still blocked):
an errChan error returns (false, 1); Interrogate echoes the status carried
by the request and continues; Stop and Shutdown run the graceful-shutdown
branch and return (false, 0); any other command is logged and the loop
continues. -/
def execLoop (shutdownErr : Bool) : List ExecEvent → List Effect × Option (Bool × Nat)
  | [] => ([], none)
  | ExecEvent.serverErr :: _ =>
      ([Effect.logError "Server error"], some (false, 1))
  | ExecEvent.request c :: rest =>
      if c.cmd = cmdInterrogate then
        (Effect.logInfo "Service interrogate received"
           :: Effect.setStatus c.currentStatus :: (execLoop shutdownErr rest).1,
         (execLoop shutdownErr rest).2)
      else if c.cmd = cmdStop ∨ c.cmd = cmdShutdown then
        (stopEffects shutdownErr, some (false, 0))
      else
        (Effect.logError "Unexpected control request" :: (execLoop shutdownErr rest).1,
         (execLoop shutdownErr rest).2)

/-- The Execute callback of the Service: the startup effects followed by
the select loop over the delivered events. -/
def Execute (shutdownErr : Bool) (events : List ExecEvent) :
    List Effect × Option (Bool × Nat) :=
  (startEffects ++ (execLoop shutdownErr events).1, (execLoop shutdownErr events).2)

/-- Value of the isRunning flag after a list of effects, starting from a
given value: the last setRunning effect wins. -/
def runAfter (init : Bool) (effs : List Effect) : Bool :=
  effs.foldl (fun b e => match e with | Effect.setRunning v => v | _ => b) init

/-- The status reported by an effect, if any. -/
def statusOf : Effect → Option SvcStatus
  | Effect.setStatus st => some st
  | _ => none

/-- The sequence of statuses reported on the changes channel by a list of
effects. -/
def reportedStatuses (effs : List Effect) : List SvcStatus :=
  effs.filterMap statusOf

/-- Modelled from the spec: a full service run reports the statuses sent by
Execute and then, when Execute has returned, the final Stopped status.
Execute itself never sends a Stopped status; the spec step "report Stopped
and terminate the callback" is performed by the external service wrapper
(svc.Run) after Execute returns. -/
def runStatuses (shutdownErr : Bool) (events : List ExecEvent) : List SvcStatus :=
  reportedStatuses (Execute shutdownErr events).1 ++
    (match (Execute shutdownErr events).2 with
     | some _ => [stoppedStatus]
     | none => [])

/-- Well-formed event: not a listener error, and an Interrogate request
carries the status the adapter last set, which is the Running status while
the select loop runs (this is what the service control manager delivers). -/
def wfEvent : ExecEvent → Bool
  | ExecEvent.serverErr => false
  | ExecEvent.request c =>
      decide (c.cmd = cmdInterrogate → c.currentStatus = runningStatus)

/-- Event that neither terminates the loop nor is a listener error: a
control request other than Stop and Shutdown. -/
def nonTerminal : ExecEvent → Bool
  | ExecEvent.serverErr => false
  | ExecEvent.request c => decide (c.cmd ≠ cmdStop ∧ c.cmd ≠ cmdShutdown)

/-- Effects emitted by one Interrogate iteration of the select loop. -/
def echoBlock (cs : SvcStatus) : List Effect :=
  [Effect.logInfo "Service interrogate received", Effect.setStatus cs]

/-! ## Helper lemmas about the Execute model -/

@[simp] lemma statusOf_setStatus (st : SvcStatus) : statusOf (Effect.setStatus st) = some st := rfl

@[simp] lemma statusOf_logInfo (m : String) : statusOf (Effect.logInfo m) = none := rfl

@[simp] lemma statusOf_logError (m : String) : statusOf (Effect.logError m) = none := rfl

@[simp] lemma statusOf_setRunning (b : Bool) : statusOf (Effect.setRunning b) = none := rfl

@[simp] lemma statusOf_shutdown (t : Nat) : statusOf (Effect.shutdown t) = none := rfl

lemma runAfter_append (x : Bool) (l₁ l₂ : List Effect) :
    runAfter x (l₁ ++ l₂) = runAfter (runAfter x l₁) l₂ :=
  List.foldl_append _ _ _ _

lemma runAfter_stopEffects (x : Bool) (err : Bool) :
    runAfter x (stopEffects err) = false := by
  cases err <;> rfl

lemma runAfter_of_no_setRunning (x : Bool) (l : List Effect)
    (h : ∀ b, Effect.setRunning b ∉ l) : runAfter x l = x := by
  induction l generalizing x with
  | nil => rfl
  | cons e rest ih =>
    have he : ∀ b, e ≠ Effect.setRunning b := fun b hb => h b (hb ▸ List.mem_cons_self e rest)
    have hrest : ∀ b, Effect.setRunning b ∉ rest := fun b hb => h b (List.mem_cons_of_mem _ hb)
    cases e with
    | setRunning b => exact absurd rfl (he b)
    | setStatus st => simpa [runAfter, List.foldl_cons] using ih x hrest
    | logInfo m => simpa [runAfter, List.foldl_cons] using ih x hrest
    | logError m => simpa [runAfter, List.foldl_cons] using ih x hrest
    | shutdown t => simpa [runAfter, List.foldl_cons] using ih x hrest

lemma reportedStatuses_append (l₁ l₂ : List Effect) :
    reportedStatuses (l₁ ++ l₂) = reportedStatuses l₁ ++ reportedStatuses l₂ := by
  simp [reportedStatuses]

lemma reportedStatuses_startEffects :
    reportedStatuses startEffects = [startPendingStatus, runningStatus] := rfl

lemma reportedStatuses_stopEffects (err : Bool) :
    reportedStatuses (stopEffects err) = [stopPendingStatus] := by
  cases err <;> rfl

@[simp] lemma reportedStatuses_nil : reportedStatuses [] = [] := rfl

@[simp] lemma reportedStatuses_cons_setStatus (st : SvcStatus) (l : List Effect) :
    reportedStatuses (Effect.setStatus st :: l) = st :: reportedStatuses l := by
  simp [reportedStatuses]

@[simp] lemma reportedStatuses_cons_logInfo (m : String) (l : List Effect) :
    reportedStatuses (Effect.logInfo m :: l) = reportedStatuses l := by
  simp [reportedStatuses]

@[simp] lemma reportedStatuses_cons_logError (m : String) (l : List Effect) :
    reportedStatuses (Effect.logError m :: l) = reportedStatuses l := by
  simp [reportedStatuses]

lemma stop_cmd_ne_interrogate (c : ChangeRequest)
    (hc : c.cmd = cmdStop ∨ c.cmd = cmdShutdown) : ¬ c.cmd = cmdInterrogate := by
  rcases hc with h | h <;> rw [h] <;> decide

lemma execLoop_append_stop (err : Bool) (c : ChangeRequest)
    (hc : c.cmd = cmdStop ∨ c.cmd = cmdShutdown) (es : List ExecEvent)
    (hes : ∀ e ∈ es, nonTerminal e = true) :
    execLoop err (es ++ [ExecEvent.request c])
      = ((execLoop err es).1 ++ stopEffects err, some (false, 0)) := by
  induction es with
  | nil => simp [execLoop, stop_cmd_ne_interrogate c hc, hc]
  | cons e rest ih =>
    have he := hes e (List.mem_cons_self _ _)
    have hrest : ∀ x ∈ rest, nonTerminal x = true :=
      fun x hx => hes x (List.mem_cons_of_mem _ hx)
    cases e with
    | serverErr => simp [nonTerminal] at he
    | request d =>
      simp [nonTerminal] at he
      by_cases hdi : d.cmd = cmdInterrogate
      · simp [execLoop, hdi, ih hrest]
      · simp [execLoop, hdi, he.1, he.2, ih hrest]

lemma execLoop_append_serverErr (err : Bool) (es rest : List ExecEvent)
    (hes : ∀ e ∈ es, nonTerminal e = true) :
    execLoop err (es ++ ExecEvent.serverErr :: rest)
      = ((execLoop err es).1 ++ [Effect.logError "Server error"], some (false, 1)) := by
  induction es with
  | nil => simp [execLoop]
  | cons e tail ih =>
    have he := hes e (List.mem_cons_self _ _)
    have htail : ∀ x ∈ tail, nonTerminal x = true :=
      fun x hx => hes x (List.mem_cons_of_mem _ hx)
    cases e with
    | serverErr => simp [nonTerminal] at he
    | request d =>
      simp [nonTerminal] at he
      by_cases hdi : d.cmd = cmdInterrogate
      · simp [execLoop, hdi, ih htail]
      · simp [execLoop, hdi, he.1, he.2, ih htail]

/-- Effects an inert (non-terminating) loop iteration may emit: log lines
and the echo of the Running status. -/
def inertEffect (e : Effect) : Prop :=
  (∃ m, e = Effect.logInfo m) ∨ (∃ m, e = Effect.logError m) ∨
    e = Effect.setStatus runningStatus

lemma execLoop_inert (err : Bool) (es : List ExecEvent)
    (hes : ∀ e ∈ es, nonTerminal e = true ∧ wfEvent e = true) :
    (∀ eff ∈ (execLoop err es).1, inertEffect eff) ∧ (execLoop err es).2 = none := by
  induction es with
  | nil => exact ⟨by simp [execLoop], rfl⟩
  | cons e rest ih =>
    obtain ⟨hnt, hwf⟩ := hes e (List.mem_cons_self _ _)
    have hrest : ∀ x ∈ rest, nonTerminal x = true ∧ wfEvent x = true :=
      fun x hx => hes x (List.mem_cons_of_mem _ hx)
    obtain ⟨ih1, ih2⟩ := ih hrest
    cases e with
    | serverErr => simp [nonTerminal] at hnt
    | request d =>
      simp [nonTerminal] at hnt
      simp [wfEvent] at hwf
      by_cases hdi : d.cmd = cmdInterrogate
      · have hcs := hwf.resolve_left (not_not_intro hdi)
        constructor
        · intro eff heff
          simp [execLoop, hdi] at heff
          rcases heff with h | h | h
          · exact Or.inl ⟨_, h⟩
          · exact Or.inr (Or.inr (by rw [h, hcs]))
          · exact ih1 eff h
        · simp [execLoop, hdi, ih2]
      · constructor
        · intro eff heff
          simp [execLoop, hdi, hnt.1, hnt.2] at heff
          rcases heff with h | h
          · exact Or.inr (Or.inl ⟨_, h⟩)
          · exact ih1 eff h
        · simp [execLoop, hdi, hnt.1, hnt.2, ih2]

lemma inert_no_setRunning (l : List Effect) (hl : ∀ eff ∈ l, inertEffect eff) :
    ∀ b, Effect.setRunning b ∉ l := by
  intro b hb
  rcases hl _ hb with ⟨m, h⟩ | ⟨m, h⟩ | h <;> cases h

/-! ## Claims about the Execute callback -/

/-- C2: when a Stop or Shutdown control request is delivered while the
service is running (after any number of non-terminating events), Execute
reports StopPending, then clears the isRunning flag (the lock-guarded
mutation is the setRunning effect), then calls server.Shutdown with a
5000 ms deadline, in that order, and returns with success exit status
(false, 0) whether or not Shutdown returned an error. -/
theorem execute_stop_transition (err : Bool) (es : List ExecEvent) (c : ChangeRequest)
    (hes : ∀ e ∈ es, nonTerminal e = true)
    (hc : c.cmd = cmdStop ∨ c.cmd = cmdShutdown) :
    (Execute err (es ++ [ExecEvent.request c])).2 = some (false, 0)
    ∧ List.Sublist
        [Effect.setStatus stopPendingStatus, Effect.setRunning false, Effect.shutdown 5000]
        (Execute err (es ++ [ExecEvent.request c])).1
    ∧ runAfter false (Execute err (es ++ [ExecEvent.request c])).1 = false := by
  have hl := execLoop_append_stop err c hc es hes
  have h1 : (Execute err (es ++ [ExecEvent.request c])).1
      = startEffects ++ ((execLoop err es).1 ++ stopEffects err) := by
    simp [Execute, hl]
  refine ⟨by simp [Execute, hl], ?_, ?_⟩
  · rw [h1, ← List.append_assoc]
    have hsub : List.Sublist
        [Effect.setStatus stopPendingStatus, Effect.setRunning false, Effect.shutdown 5000]
        (stopEffects err) := by
      cases err <;> decide
    exact hsub.trans (List.sublist_append_right _ _)
  · rw [h1, runAfter_append, runAfter_append, runAfter_stopEffects]

/-- Witness for C2 at a concrete run: one Interrogate followed by a Stop. -/
theorem execute_stop_transition_witness :
    (Execute true
      ([ExecEvent.request { cmd := cmdInterrogate, currentStatus := runningStatus }]
        ++ [ExecEvent.request { cmd := cmdStop, currentStatus := runningStatus }])).2
        = some (false, 0)
    ∧ List.Sublist
        [Effect.setStatus stopPendingStatus, Effect.setRunning false, Effect.shutdown 5000]
        (Execute true
          ([ExecEvent.request { cmd := cmdInterrogate, currentStatus := runningStatus }]
            ++ [ExecEvent.request { cmd := cmdStop, currentStatus := runningStatus }])).1
    ∧ runAfter false (Execute true
        ([ExecEvent.request { cmd := cmdInterrogate, currentStatus := runningStatus }]
          ++ [ExecEvent.request { cmd := cmdStop, currentStatus := runningStatus }])).1 = false :=
  execute_stop_transition true
    [ExecEvent.request { cmd := cmdInterrogate, currentStatus := runningStatus }]
    { cmd := cmdStop, currentStatus := runningStatus }
    (by decide) (Or.inl rfl)

lemma execLoop_replicate_interrogate (err : Bool) (cs : SvcStatus)
    (rest : List ExecEvent) (n : Nat) :
    execLoop err
        (List.replicate n (ExecEvent.request { cmd := cmdInterrogate, currentStatus := cs })
          ++ rest)
      = ((List.replicate n (echoBlock cs)).flatten ++ (execLoop err rest).1,
         (execLoop err rest).2) := by
  induction n with
  | zero => simp
  | succ n ih => simp [List.replicate_succ, execLoop, echoBlock, ih]

lemma runAfter_echoBlocks (b : Bool) (cs : SvcStatus) (n : Nat) :
    runAfter b ((List.replicate n (echoBlock cs)).flatten) = b := by
  induction n with
  | zero => rfl
  | succ n ih =>
    rw [List.replicate_succ, List.flatten_cons, runAfter_append]
    exact ih

/-- C6: Interrogate requests delivered while running are idempotent: n
Interrogate iterations emit exactly n echo blocks, each of which sends back
precisely the status carried by the request, leave the isRunning flag
unchanged, and the outcome of Execute on the remaining events is the same
whether the Interrogate was processed n times or once. -/
theorem interrogate_idempotent (err : Bool) (cs : SvcStatus) (rest : List ExecEvent)
    (n : Nat) (_hn : 1 ≤ n) :
    (execLoop err
        (List.replicate n (ExecEvent.request { cmd := cmdInterrogate, currentStatus := cs })
          ++ rest)).1
      = (List.replicate n (echoBlock cs)).flatten ++ (execLoop err rest).1
    ∧ (execLoop err
        (List.replicate n (ExecEvent.request { cmd := cmdInterrogate, currentStatus := cs })
          ++ rest)).2
      = (execLoop err
          (ExecEvent.request { cmd := cmdInterrogate, currentStatus := cs } :: rest)).2
    ∧ runAfter true ((List.replicate n (echoBlock cs)).flatten) = true
    ∧ echoBlock cs = [Effect.logInfo "Service interrogate received", Effect.setStatus cs] := by
  have h := execLoop_replicate_interrogate err cs rest n
  have h1 := execLoop_replicate_interrogate err cs rest 1
  refine ⟨by rw [h], ?_, runAfter_echoBlocks true cs n, rfl⟩
  rw [h]
  have hl : ExecEvent.request { cmd := cmdInterrogate, currentStatus := cs } :: rest
      = List.replicate 1 (ExecEvent.request { cmd := cmdInterrogate, currentStatus := cs })
          ++ rest := by
    simp
  rw [hl, h1]

/-- Witness for C6 at n = 3 with the Running status carried by the request
and a Stop event remaining. -/
theorem interrogate_idempotent_witness :
    (execLoop false
        (List.replicate 3
            (ExecEvent.request { cmd := cmdInterrogate, currentStatus := runningStatus })
          ++ [ExecEvent.request { cmd := cmdStop, currentStatus := runningStatus }])).1
      = (List.replicate 3 (echoBlock runningStatus)).flatten
          ++ (execLoop false
                [ExecEvent.request { cmd := cmdStop, currentStatus := runningStatus }]).1
    ∧ (execLoop false
        (List.replicate 3
            (ExecEvent.request { cmd := cmdInterrogate, currentStatus := runningStatus })
          ++ [ExecEvent.request { cmd := cmdStop, currentStatus := runningStatus }])).2
      = (execLoop false
          (ExecEvent.request { cmd := cmdInterrogate, currentStatus := runningStatus }
            :: [ExecEvent.request { cmd := cmdStop, currentStatus := runningStatus }])).2
    ∧ runAfter true ((List.replicate 3 (echoBlock runningStatus)).flatten) = true
    ∧ echoBlock runningStatus
        = [Effect.logInfo "Service interrogate received", Effect.setStatus runningStatus] :=
  interrogate_idempotent false runningStatus
    [ExecEvent.request { cmd := cmdStop, currentStatus := runningStatus }] 3 (by decide)

lemma stopPending_ne_startPending : stopPendingStatus ≠ startPendingStatus := by decide

lemma stopPending_ne_running : stopPendingStatus ≠ runningStatus := by decide

/-- C7: when the listener goroutine delivers an error on errChan after any
number of non-terminating, well-formed control events, the control loop
returns at once with failure status (false, 1): no StopPending status is
reported, the isRunning flag is never cleared (it stays true), no graceful
shutdown is invoked, and any later events are not processed. -/
theorem server_error_abort (err : Bool) (es rest : List ExecEvent)
    (hes : ∀ e ∈ es, nonTerminal e = true ∧ wfEvent e = true) :
    (Execute err (es ++ ExecEvent.serverErr :: rest)).2 = some (false, 1)
    ∧ Effect.setStatus stopPendingStatus ∉ (Execute err (es ++ ExecEvent.serverErr :: rest)).1
    ∧ Effect.setRunning false ∉ (Execute err (es ++ ExecEvent.serverErr :: rest)).1
    ∧ (∀ t, Effect.shutdown t ∉ (Execute err (es ++ ExecEvent.serverErr :: rest)).1)
    ∧ runAfter false (Execute err (es ++ ExecEvent.serverErr :: rest)).1 = true := by
  have hnt : ∀ e ∈ es, nonTerminal e = true := fun e he => (hes e he).1
  have hl := execLoop_append_serverErr err es rest hnt
  obtain ⟨hin, -⟩ := execLoop_inert err es hes
  have h1 : (Execute err (es ++ ExecEvent.serverErr :: rest)).1
      = startEffects ++ ((execLoop err es).1 ++ [Effect.logError "Server error"]) := by
    simp [Execute, hl]
  refine ⟨by simp [Execute, hl], ?_, ?_, ?_, ?_⟩
  · rw [h1]
    intro hmem
    rcases List.mem_append.mp hmem with h | h
    · simp [startEffects, stopPending_ne_startPending, stopPending_ne_running] at h
    · rcases List.mem_append.mp h with h | h
      · rcases hin _ h with ⟨m, hh⟩ | ⟨m, hh⟩ | hh
        · cases hh
        · cases hh
        · exact stopPending_ne_running (Effect.setStatus.inj hh)
      · simp at h
  · rw [h1]
    intro hmem
    rcases List.mem_append.mp hmem with h | h
    · simp [startEffects] at h
    · rcases List.mem_append.mp h with h | h
      · exact inert_no_setRunning _ hin false h
      · simp at h
  · intro t
    rw [h1]
    intro hmem
    rcases List.mem_append.mp hmem with h | h
    · simp [startEffects] at h
    · rcases List.mem_append.mp h with h | h
      · rcases hin _ h with ⟨m, hh⟩ | ⟨m, hh⟩ | hh <;> cases hh
      · simp at h
  · rw [h1, runAfter_append, runAfter_append]
    have h2 : runAfter false startEffects = true := rfl
    have h3 : runAfter true (execLoop err es).1 = true :=
      runAfter_of_no_setRunning _ _ (inert_no_setRunning _ hin)
    rw [h2, h3]
    rfl

/-- Witness for C7: one well-formed Interrogate, then the listener error,
with one more request queued behind it that is never processed. -/
theorem server_error_abort_witness :
    (Execute false
        ([ExecEvent.request { cmd := cmdInterrogate, currentStatus := runningStatus }]
          ++ ExecEvent.serverErr
              :: [ExecEvent.request { cmd := cmdStop, currentStatus := runningStatus }])).2
      = some (false, 1)
    ∧ Effect.setStatus stopPendingStatus ∉ (Execute false
        ([ExecEvent.request { cmd := cmdInterrogate, currentStatus := runningStatus }]
          ++ ExecEvent.serverErr
              :: [ExecEvent.request { cmd := cmdStop, currentStatus := runningStatus }])).1
    ∧ Effect.setRunning false ∉ (Execute false
        ([ExecEvent.request { cmd := cmdInterrogate, currentStatus := runningStatus }]
          ++ ExecEvent.serverErr
              :: [ExecEvent.request { cmd := cmdStop, currentStatus := runningStatus }])).1
    ∧ (∀ t, Effect.shutdown t ∉ (Execute false
        ([ExecEvent.request { cmd := cmdInterrogate, currentStatus := runningStatus }]
          ++ ExecEvent.serverErr
              :: [ExecEvent.request { cmd := cmdStop, currentStatus := runningStatus }])).1)
    ∧ runAfter false (Execute false
        ([ExecEvent.request { cmd := cmdInterrogate, currentStatus := runningStatus }]
          ++ ExecEvent.serverErr
              :: [ExecEvent.request { cmd := cmdStop, currentStatus := runningStatus }])).1
      = true :=
  server_error_abort false
    [ExecEvent.request { cmd := cmdInterrogate, currentStatus := runningStatus }]
    [ExecEvent.request { cmd := cmdStop, currentStatus := runningStatus }]
    (by decide)

lemma execLoop_wf_statuses (err : Bool) (es : List ExecEvent)
    (hes : ∀ e ∈ es, wfEvent e = true) :
    ((execLoop err es).2 = none ∧
      ∃ k, reportedStatuses (execLoop err es).1 = List.replicate k runningStatus) ∨
    ((execLoop err es).2 = some (false, 0) ∧
      ∃ k, reportedStatuses (execLoop err es).1
        = List.replicate k runningStatus ++ [stopPendingStatus]) := by
  induction es with
  | nil => exact Or.inl ⟨rfl, 0, rfl⟩
  | cons e rest ih =>
    have hwf := hes e (List.mem_cons_self _ _)
    have hrest : ∀ x ∈ rest, wfEvent x = true :=
      fun x hx => hes x (List.mem_cons_of_mem _ hx)
    cases e with
    | serverErr => simp [wfEvent] at hwf
    | request d =>
      simp [wfEvent] at hwf
      by_cases hdi : d.cmd = cmdInterrogate
      · have hcs := hwf.resolve_left (not_not_intro hdi)
        rcases ih hrest with ⟨h2, k, hk⟩ | ⟨h2, k, hk⟩
        · exact Or.inl ⟨by simp [execLoop, hdi, h2],
            k + 1, by simp [execLoop, hdi, hcs, hk, List.replicate_succ]⟩
        · exact Or.inr ⟨by simp [execLoop, hdi, h2],
            k + 1, by simp [execLoop, hdi, hcs, hk, List.replicate_succ]⟩
      · by_cases hds : d.cmd = cmdStop ∨ d.cmd = cmdShutdown
        · exact Or.inr ⟨by simp [execLoop, hdi, hds],
            0, by simp [execLoop, hdi, hds, reportedStatuses_stopEffects]⟩
        · rcases ih hrest with ⟨h2, k, hk⟩ | ⟨h2, k, hk⟩
          · exact Or.inl ⟨by simp [execLoop, hdi, hds, h2],
              k, by simp [execLoop, hdi, hds, hk]⟩
          · exact Or.inr ⟨by simp [execLoop, hdi, hds, h2],
              k, by simp [execLoop, hdi, hds, hk]⟩

/-- C1: over any sequence of well-formed control events after which Execute
returns, the full sequence of reported statuses is exactly StartPending,
one or more Running reports (the mandatory Running report plus one echo per
Interrogate), StopPending, and finally Stopped: nothing in the chain is
skipped, Running never follows StopPending, and Stopped is the final
status. -/
theorem execute_status_order (err : Bool) (events : List ExecEvent) (r : Bool × Nat)
    (hwf : ∀ e ∈ events, wfEvent e = true)
    (hr : (Execute err events).2 = some r) :
    ∃ k, runStatuses err events
      = startPendingStatus
          :: (List.replicate (k + 1) runningStatus ++ [stopPendingStatus, stoppedStatus]) := by
  rcases execLoop_wf_statuses err events hwf with ⟨h2, -⟩ | ⟨h2, k, hk⟩
  · rw [show (Execute err events).2 = (execLoop err events).2 from rfl, h2] at hr
    cases hr
  · refine ⟨k, ?_⟩
    unfold runStatuses
    rw [show (Execute err events).1 = startEffects ++ (execLoop err events).1 from rfl,
      reportedStatuses_append, reportedStatuses_startEffects, hk,
      show (Execute err events).2 = (execLoop err events).2 from rfl, h2]
    simp [List.replicate_succ]

/-- Witness for C1: two Interrogate echoes followed by a Shutdown request. -/
theorem execute_status_order_witness :
    ∃ k, runStatuses true
        [ExecEvent.request { cmd := cmdInterrogate, currentStatus := runningStatus },
         ExecEvent.request { cmd := cmdInterrogate, currentStatus := runningStatus },
         ExecEvent.request { cmd := cmdShutdown, currentStatus := runningStatus }]
      = startPendingStatus
          :: (List.replicate (k + 1) runningStatus ++ [stopPendingStatus, stoppedStatus]) :=
  execute_status_order true
    [ExecEvent.request { cmd := cmdInterrogate, currentStatus := runningStatus },
     ExecEvent.request { cmd := cmdInterrogate, currentStatus := runningStatus },
     ExecEvent.request { cmd := cmdShutdown, currentStatus := runningStatus }]
    (false, 0) (by decide) (by decide)

/-! ## Configuration loading (LoadConfig in golang-webserver/main.go) -/

/-- Config: the two-field configuration structure, port and folder. -/
structure Config where
  port : String
  folder : String
deriving DecidableEq, Repr

/-- Outcome of opening the config file and running the JSON decoder on it
(external primitives json.NewDecoder(file).Decode): either the content is
not parseable as the two-field structure, or it yields a port and a folder
string (absent fields decode to the empty string in Go). -/
inductive DecodeResult
  | malformed
  | ok (port folder : String)
deriving DecidableEq, Repr

/-- Oracle for the filesystem interactions of LoadConfig: whether
os.Executable succeeds, the result of opening and decoding the config file
beside the executable (none when os.Open fails because the file is absent),
and, per folder path, whether os.Stat fails with an os.IsNotExist error. -/
structure FsEnv where
  exePathOk : Bool
  configFile : Option DecodeResult
  statIsNotExist : String → Bool

/-- Errors returned by LoadConfig, one per return site in the source. -/
inductive ConfigError
  | exePathFailed
  | openFailed
  | decodeFailed
  | emptyPort
  | emptyFolder
  | folderNotExist (folder : String)
deriving DecidableEq, Repr

/-- LoadConfig: resolve the executable path, open and decode the config
file beside it, then validate: port non-empty, folder non-empty, folder
passes the os.Stat existence check.  Returns the parsed Config or the
first error hit, in source order. -/
def LoadConfig (env : FsEnv) : Except ConfigError Config :=
  if env.exePathOk = false then Except.error ConfigError.exePathFailed
  else
    match env.configFile with
    | none => Except.error ConfigError.openFailed
    | some DecodeResult.malformed => Except.error ConfigError.decodeFailed
    | some (DecodeResult.ok port folder) =>
      if port = "" then Except.error ConfigError.emptyPort
      else if folder = "" then Except.error ConfigError.emptyFolder
      else if env.statIsNotExist folder = true then
        Except.error (ConfigError.folderNotExist folder)
      else Except.ok { port := port, folder := folder }

/-- C3: when the executable path resolves and the file decodes to a
non-empty port, a non-empty folder, and a folder that exists on disk,
LoadConfig returns exactly the parsed Configuration and no error; when the
file is absent, the content is malformed, the port is empty, the folder is
empty, or the folder does not exist, LoadConfig returns an error and no
Configuration. -/
theorem loadConfig_validation (env : FsEnv) (p f : String) :
    (env.exePathOk = true → env.configFile = some (DecodeResult.ok p f) →
      p ≠ "" → f ≠ "" → env.statIsNotExist f = false →
      LoadConfig env = Except.ok { port := p, folder := f })
    ∧ (env.configFile = none → ∃ e, LoadConfig env = Except.error e)
    ∧ (env.configFile = some DecodeResult.malformed →
        ∃ e, LoadConfig env = Except.error e)
    ∧ (env.configFile = some (DecodeResult.ok p f) →
        p = "" ∨ f = "" ∨ env.statIsNotExist f = true →
        ∃ e, LoadConfig env = Except.error e) := by
  refine ⟨?_, ?_, ?_, ?_⟩
  · intro hexe hfile hp hf hstat
    simp [LoadConfig, hexe, hfile, hp, hf, hstat]
  · intro hfile
    by_cases hexe : env.exePathOk = true
    · exact ⟨ConfigError.openFailed, by simp [LoadConfig, hexe, hfile]⟩
    · exact ⟨ConfigError.exePathFailed,
        by simp [LoadConfig, Bool.eq_false_iff.mpr (by simpa using hexe)]⟩
  · intro hfile
    by_cases hexe : env.exePathOk = true
    · exact ⟨ConfigError.decodeFailed, by simp [LoadConfig, hexe, hfile]⟩
    · exact ⟨ConfigError.exePathFailed,
        by simp [LoadConfig, Bool.eq_false_iff.mpr (by simpa using hexe)]⟩
  · intro hfile hbad
    by_cases hexe : env.exePathOk = true
    · rcases hbad with hp | hf | hstat
      · exact ⟨ConfigError.emptyPort, by simp [LoadConfig, hexe, hfile, hp]⟩
      · by_cases hp : p = ""
        · exact ⟨ConfigError.emptyPort, by simp [LoadConfig, hexe, hfile, hp]⟩
        · exact ⟨ConfigError.emptyFolder, by simp [LoadConfig, hexe, hfile, hp, hf]⟩
      · by_cases hp : p = ""
        · exact ⟨ConfigError.emptyPort, by simp [LoadConfig, hexe, hfile, hp]⟩
        · by_cases hf : f = ""
          · exact ⟨ConfigError.emptyFolder, by simp [LoadConfig, hexe, hfile, hp, hf]⟩
          · exact ⟨ConfigError.folderNotExist f,
              by simp [LoadConfig, hexe, hfile, hp, hf, hstat]⟩
    · exact ⟨ConfigError.exePathFailed,
        by simp [LoadConfig, Bool.eq_false_iff.mpr (by simpa using hexe)]⟩

/-- Witness for C3: a valid environment with port 8089 and an existing
folder, plus an environment whose config file is absent. -/
theorem loadConfig_validation_witness :
    LoadConfig
        { exePathOk := true,
          configFile := some (DecodeResult.ok "8089" "/images"),
          statIsNotExist := fun _ => false }
      = Except.ok { port := "8089", folder := "/images" }
    ∧ ∃ e, LoadConfig
        { exePathOk := true, configFile := none, statIsNotExist := fun _ => false }
      = Except.error e :=
  ⟨(loadConfig_validation
      { exePathOk := true,
        configFile := some (DecodeResult.ok "8089" "/images"),
        statIsNotExist := fun _ => false } "8089" "/images").1
      rfl rfl (by decide) (by decide) rfl,
   (loadConfig_validation
      { exePathOk := true, configFile := none, statIsNotExist := fun _ => false }
      "8089" "/images").2.1 rfl⟩

/-! ## HTTP listener construction, both deployment variants -/

/-- An inbound HTTP request: its method and URL path. -/
structure HttpRequest where
  method : String
  path : String
deriving DecidableEq, Repr

/-- Observable effects of a registered handler on one request: a log line
with the request method and path, or delegation to the file-serving
primitive http.FileServer(http.Dir(folder)). -/
inductive HandlerEffect
  | logRequest (method path : String)
  | serveFile (folder : String) (r : HttpRequest)
deriving DecidableEq, Repr

/-- One nanosecond, the unit of Go time.Duration. -/
def nanosecond : Nat := 1

/-- Go time.Second in nanoseconds. -/
def second : Nat := 1000000000

/-- The fields of a Go http.Server relevant here: the bind address, the
registered handler (as its effect trace per request), and the three
timeouts in nanoseconds (0 is the Go zero value, meaning no timeout). -/
structure HttpServer where
  addr : String
  handler : HttpRequest → List HandlerEffect
  readTimeout : Nat
  writeTimeout : Nat
  idleTimeout : Nat

/-- createServer from the service variant: a mux with
http.FileServer(http.Dir(config.Folder)) registered at "/" (all paths),
bound to ":"+port with 15s read, 15s write and 60s idle timeouts.  The
registered handler delegates directly to the file server and logs
nothing. -/
def createServer (config : Config) : HttpServer :=
  { addr := ":" ++ config.port
    handler := fun r => [HandlerEffect.serveFile config.folder r]
    readTimeout := 15 * second
    writeTimeout := 15 * second
    idleTimeout := 60 * second }

/-- ServeFiles from the container variant: registers at "/" (all paths) a
handler that logs the request method and path and then delegates to
http.FileServer(http.Dir(folder)), and calls http.ListenAndServe(":"+port,
nil).  The Go standard library ListenAndServe constructs an http.Server
with only Addr and Handler set, so every timeout is the zero value: no
read, write or idle timeout is enforced. -/
def ServeFiles (port folder : String) : HttpServer :=
  { addr := ":" ++ port
    handler := fun r =>
      [HandlerEffect.logRequest r.method r.path, HandlerEffect.serveFile folder r]
    readTimeout := 0
    writeTimeout := 0
    idleTimeout := 0 }

/-- C4 counterexample: in the service variant, the handler built by
createServer serves the request GET /cover.png without logging its method
and path first — the log effect the claim requires does not occur, and the
whole effect trace is the bare delegation. -/
theorem createServer_handler_no_log :
    (createServer { port := "8089", folder := "/images" }).handler
        { method := "GET", path := "/cover.png" }
      = [HandlerEffect.serveFile "/images" { method := "GET", path := "/cover.png" }]
    ∧ HandlerEffect.logRequest "GET" "/cover.png"
        ∉ (createServer { port := "8089", folder := "/images" }).handler
            { method := "GET", path := "/cover.png" } := by
  exact ⟨rfl, by decide⟩

/-- C4 amended: only the container variant logs every request.  The handler
registered by ServeFiles logs the request method and path before delegating
to the file-serving primitive; the handler registered by the service
variant createServer delegates directly and never logs. -/
theorem request_logging_variants (port folder : String) (config : Config)
    (r : HttpRequest) :
    (ServeFiles port folder).handler r
      = [HandlerEffect.logRequest r.method r.path, HandlerEffect.serveFile folder r]
    ∧ (createServer config).handler r = [HandlerEffect.serveFile config.folder r] :=
  ⟨rfl, rfl⟩

/-- C5 counterexample: the container variant listener enforces no read
timeout at all — its read timeout is the zero value, not 15 seconds (and
likewise its write and idle timeouts are zero). -/
theorem serveFiles_no_timeouts :
    ¬ (ServeFiles "8089" "/images").readTimeout = 15 * second
    ∧ (ServeFiles "8089" "/images").readTimeout = 0
    ∧ (ServeFiles "8089" "/images").writeTimeout = 0
    ∧ (ServeFiles "8089" "/images").idleTimeout = 0 := by
  refine ⟨by decide, rfl, rfl, rfl⟩

/-- C5 amended: both variants bind ":"+port and register the static file
responder for all paths, but only the service variant listener enforces the
read 15s / write 15s / idle 60s timeouts; the container variant uses
http.ListenAndServe, whose server has all timeouts at the zero value (none
enforced). -/
theorem listener_config_variants (port folder : String) (config : Config)
    (r : HttpRequest) :
    (createServer config).addr = ":" ++ config.port
    ∧ (createServer config).readTimeout = 15 * second
    ∧ (createServer config).writeTimeout = 15 * second
    ∧ (createServer config).idleTimeout = 60 * second
    ∧ (createServer config).handler r = [HandlerEffect.serveFile config.folder r]
    ∧ (ServeFiles port folder).addr = ":" ++ port
    ∧ (ServeFiles port folder).handler r
        = [HandlerEffect.logRequest r.method r.path, HandlerEffect.serveFile folder r]
    ∧ (ServeFiles port folder).readTimeout = 0
    ∧ (ServeFiles port folder).writeTimeout = 0
    ∧ (ServeFiles port folder).idleTimeout = 0 :=
  ⟨rfl, rfl, rfl, rfl, rfl, rfl, rfl, rfl, rfl, rfl⟩

/-! ## Service installation (installService in main.go and the install
branch of manage_service.bat) -/

/-- mgr.StartAutomatic. -/
def startAutomatic : Nat := 2

/-- A service failure policy as set by sc failure: the reset window in
seconds and the list of actions, each an action name with its delay in
milliseconds. -/
structure FailureActions where
  resetPeriodSec : Nat
  actions : List (String × Nat)
deriving DecidableEq, Repr

/-- The mgr.Config passed to CreateService in installService. -/
structure SvcConfig where
  startType : Nat
  displayName : String
  description : String
  serviceStartName : String
deriving DecidableEq, Repr

/-- A registered service: the executable path, its configuration, the
trailing arguments given at creation, and the failure policy (none until
sc failure sets one). -/
structure SvcRegistration where
  exePath : String
  config : SvcConfig
  args : List String
  failure : Option FailureActions
deriving DecidableEq, Repr

/-- The system state touched by install and remove: the registered services
by name and the registered event-log sources by name. -/
structure SysState where
  services : String → Option SvcRegistration
  eventLogSources : String → Bool

/-- Remove an event-log source registration (eventlog.Remove). -/
def removeSource (st : SysState) (n : String) : SysState :=
  { st with eventLogSources := fun m => if m = n then false else st.eventLogSources m }

/-- Add an event-log source registration (eventlog.InstallAsEventCreate). -/
def addSource (st : SysState) (n : String) : SysState :=
  { st with eventLogSources := fun m => if m = n then true else st.eventLogSources m }

/-- Register a service (m.CreateService). -/
def addService (st : SysState) (n : String) (reg : SvcRegistration) : SysState :=
  { st with services := fun m => if m = n then some reg else st.services m }

/-- Delete a service registration (s.Delete). -/
def delService (st : SysState) (n : String) : SysState :=
  { st with services := fun m => if m = n then none else st.services m }

/-- Update a registered service in place (sc config / sc failure). -/
def configureService (st : SysState) (n : String)
    (f : SvcRegistration → SvcRegistration) : SysState :=
  { st with services := fun m => if m = n then (st.services m).map f else st.services m }

/-- One step of installService, in the order the source performs them. -/
inductive InstallStep
  | removeEventSource (name : String)
  | getExePath
  | connectMgr
  | openService (name : String)
  | createService (name : String)
  | installEventSource (name : String)
  | deleteService (name : String)
deriving DecidableEq, Repr

/-- Outcome of eventlog.InstallAsEventCreate: success, failure whose error
message contains "registry key already exists" (tolerated), or any other
failure. -/
inductive EvInstallResult
  | ok
  | alreadyExistsErr
  | otherErr
deriving DecidableEq, Repr

/-- Oracle for the external calls made by installService: the result of
os.Executable, whether mgr.Connect succeeds, whether CreateService succeeds
once reached, and the outcome of eventlog.InstallAsEventCreate. -/
structure InstallEnv where
  exePath : Option String
  mgrConnectOk : Bool
  createOk : Bool
  evInstall : EvInstallResult
deriving DecidableEq, Repr

/-- Errors returned by installService, one per return site. -/
inductive InstallErr
  | exePathFailed
  | connectFailed
  | alreadyExists
  | createFailed
  | eventLogFailed
deriving DecidableEq, Repr

/-- The mgr.Config literal passed to CreateService for ImageServer. -/
def imageServerConfig : SvcConfig :=
  { startType := startAutomatic
    displayName := "Image Server"
    description := "A simple image-serving web server."
    serviceStartName := "LocalSystem" }

/-- installService, statement by statement: first eventlog.Remove
("ImageServer"), ignoring its error; then os.Executable; then mgr.Connect;
then OpenService("ImageServer") as the existing-service check, returning
the already-exists error when it succeeds; then CreateService with the
automatic start type and the "service" argument; then
eventlog.InstallAsEventCreate, tolerating a registry-key-already-exists
failure and otherwise deleting the just-created service and failing.
Returns the steps performed, the resulting system state, and the result. -/
def installService (env : InstallEnv) (st : SysState) :
    List InstallStep × SysState × Except InstallErr Unit :=
  let st1 := removeSource st "ImageServer"
  let steps1 := [InstallStep.removeEventSource "ImageServer", InstallStep.getExePath]
  match env.exePath with
  | none => (steps1, st1, Except.error InstallErr.exePathFailed)
  | some exe =>
    if env.mgrConnectOk = false then
      (steps1 ++ [InstallStep.connectMgr], st1, Except.error InstallErr.connectFailed)
    else
      let steps2 := steps1 ++ [InstallStep.connectMgr, InstallStep.openService "ImageServer"]
      match st1.services "ImageServer" with
      | some _ => (steps2, st1, Except.error InstallErr.alreadyExists)
      | none =>
        if env.createOk = false then
          (steps2 ++ [InstallStep.createService "ImageServer"], st1,
           Except.error InstallErr.createFailed)
        else
          let reg : SvcRegistration :=
            { exePath := exe, config := imageServerConfig,
              args := ["service"], failure := none }
          let st2 := addService st1 "ImageServer" reg
          let steps3 := steps2 ++
            [InstallStep.createService "ImageServer",
             InstallStep.installEventSource "ImageServer"]
          match env.evInstall with
          | EvInstallResult.ok => (steps3, addSource st2 "ImageServer", Except.ok ())
          | EvInstallResult.alreadyExistsErr => (steps3, st2, Except.ok ())
          | EvInstallResult.otherErr =>
              (steps3 ++ [InstallStep.deleteService "ImageServer"],
               delService st2 "ImageServer", Except.error InstallErr.eventLogFailed)

/-- The failure policy set by manage_service.bat:
sc failure ImageServer reset= 86400 actions= restart/60000/restart/60000/restart/60000. -/
def scFailurePolicy : FailureActions :=
  { resetPeriodSec := 86400
    actions := [("restart", 60000), ("restart", 60000), ("restart", 60000)] }

/-- The install branch of process_commands in manage_service.bat: run the
executable with the install argument; when it succeeds, run
sc config ImageServer start= auto and then sc failure ImageServer with the
60-second restart actions and the 86400-second (24-hour) reset window. -/
def batchInstall (env : InstallEnv) (st : SysState) :
    SysState × Except InstallErr Unit :=
  let r := installService env st
  match r.2.2 with
  | Except.error e => (r.2.1, Except.error e)
  | Except.ok _ =>
    let st2 := configureService r.2.1 "ImageServer"
      (fun reg => { reg with config := { reg.config with startType := startAutomatic } })
    let st3 := configureService st2 "ImageServer"
      (fun reg => { reg with failure := some scFailurePolicy })
    (st3, Except.ok ())

/-- An install environment in which every external call succeeds. -/
def happyInstallEnv : InstallEnv :=
  { exePath := some "C:/image_server.exe", mgrConnectOk := true,
    createOk := true, evInstall := EvInstallResult.ok }

/-- A fresh system: no services registered, the event-log source present. -/
def freshState : SysState :=
  { services := fun _ => none, eventLogSources := fun _ => true }

/-- A pre-existing ImageServer registration. -/
def oldRegistration : SvcRegistration :=
  { exePath := "C:/old.exe", config := imageServerConfig,
    args := ["service"], failure := none }

/-- A system on which ImageServer is already installed, with its event-log
source present. -/
def installedState : SysState :=
  { services := fun n => if n = "ImageServer" then some oldRegistration else none,
    eventLogSources := fun _ => true }

/-- C8: a successful install through the batch script registers the current
executable path as service ImageServer with the automatic start type,
leaves it with the sc failure policy of three restart actions of 60000 ms
(60 s) each inside an 86400 s (24 h) reset window, and registers the
event-log source for it. -/
theorem batchInstall_registers_service (env : InstallEnv) (st : SysState) (exe : String)
    (hexe : env.exePath = some exe) (hmgr : env.mgrConnectOk = true)
    (habsent : st.services "ImageServer" = none) (hcreate : env.createOk = true)
    (hev : env.evInstall = EvInstallResult.ok) :
    (batchInstall env st).2 = Except.ok ()
    ∧ (batchInstall env st).1.services "ImageServer"
        = some { exePath := exe, config := imageServerConfig,
                 args := ["service"], failure := some scFailurePolicy }
    ∧ imageServerConfig.startType = startAutomatic
    ∧ (batchInstall env st).1.eventLogSources "ImageServer" = true
    ∧ scFailurePolicy.resetPeriodSec = 86400
    ∧ scFailurePolicy.actions = List.replicate 3 ("restart", 60000) := by
  refine ⟨?_, ?_, rfl, ?_, rfl, by decide⟩ <;>
    simp [batchInstall, installService, hexe, hmgr, hcreate, hev, removeSource,
      addService, addSource, configureService, imageServerConfig, habsent]

/-- Witness for C8 on a fresh system with every external call succeeding. -/
theorem batchInstall_registers_service_witness :
    (batchInstall happyInstallEnv freshState).2 = Except.ok ()
    ∧ (batchInstall happyInstallEnv freshState).1.services "ImageServer"
        = some { exePath := "C:/image_server.exe", config := imageServerConfig,
                 args := ["service"], failure := some scFailurePolicy }
    ∧ imageServerConfig.startType = startAutomatic
    ∧ (batchInstall happyInstallEnv freshState).1.eventLogSources "ImageServer" = true
    ∧ scFailurePolicy.resetPeriodSec = 86400
    ∧ scFailurePolicy.actions = List.replicate 3 ("restart", 60000) :=
  batchInstall_registers_service happyInstallEnv freshState "C:/image_server.exe"
    rfl rfl rfl rfl rfl

/-- C9: when the service name ImageServer is already registered (and the
external calls before the check succeed), installService returns the
already-exists error, performs no CreateService step, and leaves the
services map, in particular the existing registration, exactly as it
was. -/
theorem install_already_exists_error (env : InstallEnv) (st : SysState)
    (exe : String) (reg : SvcRegistration)
    (hexe : env.exePath = some exe) (hmgr : env.mgrConnectOk = true)
    (hsvc : st.services "ImageServer" = some reg) :
    (installService env st).2.2 = Except.error InstallErr.alreadyExists
    ∧ (installService env st).2.1.services = st.services
    ∧ InstallStep.createService "ImageServer" ∉ (installService env st).1 := by
  refine ⟨?_, ?_, ?_⟩ <;>
    simp [installService, hexe, hmgr, removeSource, hsvc]

/-- Witness for C9 on a system that already holds an ImageServer
registration. -/
theorem install_already_exists_error_witness :
    (installService happyInstallEnv installedState).2.2
      = Except.error InstallErr.alreadyExists
    ∧ (installService happyInstallEnv installedState).2.1.services
        = installedState.services
    ∧ InstallStep.createService "ImageServer"
        ∉ (installService happyInstallEnv installedState).1 :=
  install_already_exists_error happyInstallEnv installedState
    "C:/image_server.exe" oldRegistration rfl rfl (by simp [installedState])

/-- C10: every invocation of installService removes the ImageServer
event-log source as its very first step, before connecting to the service
manager and before the existing-service check; consequently on the
already-exists error path the source registration has already been removed,
so install does not leave system state unchanged on that error. -/
theorem install_removes_event_source_first (env : InstallEnv) (st : SysState) :
    (installService env st).1.head? = some (InstallStep.removeEventSource "ImageServer")
    ∧ (∀ exe reg, env.exePath = some exe → env.mgrConnectOk = true →
        st.services "ImageServer" = some reg →
        (installService env st).2.2 = Except.error InstallErr.alreadyExists
        ∧ (installService env st).2.1.eventLogSources "ImageServer" = false) := by
  constructor
  · cases hexe : env.exePath with
    | none => simp [installService, hexe]
    | some exe =>
      by_cases hmgr : env.mgrConnectOk = false
      · simp [installService, hexe, hmgr]
      · cases hsvc : (removeSource st "ImageServer").services "ImageServer" with
        | some reg => simp [installService, hexe, hmgr, hsvc]
        | none =>
          by_cases hcr : env.createOk = false
          · simp [installService, hexe, hmgr, hsvc, hcr]
          · cases hev : env.evInstall with
            | ok => simp [installService, hexe, hmgr, hsvc, hcr, hev]
            | alreadyExistsErr => simp [installService, hexe, hmgr, hsvc, hcr, hev]
            | otherErr => simp [installService, hexe, hmgr, hsvc, hcr, hev]
  · intro exe reg hexe hmgr hsvc
    constructor <;> simp [installService, hexe, hmgr, removeSource, hsvc]

/-- Witness for C10 on the same already-installed system as the C9
witness: install fails with the already-exists error, yet the event-log
source that was present beforehand is gone. -/
theorem install_removes_event_source_first_witness :
    (installService happyInstallEnv installedState).1.head?
      = some (InstallStep.removeEventSource "ImageServer")
    ∧ (installService happyInstallEnv installedState).2.1.eventLogSources "ImageServer"
      = false :=
  ⟨(install_removes_event_source_first happyInstallEnv installedState).1,
   ((install_removes_event_source_first happyInstallEnv installedState).2
      "C:/image_server.exe" oldRegistration rfl rfl (by simp [installedState])).2⟩
